import Mathlib

/-!
Verification of the constantine Rust bindings (constantine-rust):
shallow embedding of the protocol-orchestration layer
(`constantine-ethereum-bls-sig` and `constantine-ethereum-kzg`)
and of the engine interface it consumes.

The Rust crates under verification are thin wrappers around the
`ctt_*` arithmetic-engine entry points.  The wrappers themselves
(status dispatch, length pre-checks, thread-pool handling) are embedded
faithfully from the Rust sources; the engine entry points are either
kept abstract (fields of an engine structure, universally quantified in
the theorems) or, where a theorem needs their input/output behaviour,
modelled from the specification (each such definition is marked
`Modelled from the spec:`).
-/

namespace Constantine

/-! ## Status enumerations (from constantine-sys/src/lib.rs) -/

/-- Status enum of the Ethereum BLS signature operations,
as listed in the `Display` instance in `constantine-sys/src/lib.rs`. -/
inductive ctt_eth_bls_status where
  | cttEthBls_Success
  | cttEthBls_VerificationFailure
  | cttEthBls_InputsLengthsMismatch
  | cttEthBls_ZeroLengthAggregation
  | cttEthBls_PointAtInfinity
deriving DecidableEq

/-- Status enum of the scalar codec,
as listed in the `Display` instance in `constantine-sys/src/lib.rs`. -/
inductive ctt_codec_scalar_status where
  | cttCodecScalar_Success
  | cttCodecScalar_Zero
  | cttCodecScalar_ScalarLargerThanCurveOrder
deriving DecidableEq

/-- Status enum of the elliptic-curve codec,
as listed in the `Display` instance in `constantine-sys/src/lib.rs`. -/
inductive ctt_codec_ecc_status where
  | cttCodecEcc_Success
  | cttCodecEcc_InvalidEncoding
  | cttCodecEcc_CoordinateGreaterThanOrEqualModulus
  | cttCodecEcc_PointNotOnCurve
  | cttCodecEcc_PointNotInSubgroup
  | cttCodecEcc_PointAtInfinity
deriving DecidableEq

/-- Status enum of the Ethereum KZG operations.  The Rust sources match
on `cttEthKzg_Success`, `cttEthKzg_VerificationFailure` and construct
`cttEthKzg_InputsLengthsMismatch`; every other engine status code is
only ever handled by the catch-all `_ => Err(status)` arm, so the
remaining decode/format status codes are modelled as an indexed family
`otherError` (Modelled from the spec: taxonomy (1) of section 7, codec
errors for malformed or out-of-range input). -/
inductive ctt_eth_kzg_status where
  | cttEthKzg_Success
  | cttEthKzg_VerificationFailure
  | cttEthKzg_InputsLengthsMismatch
  | otherError (code : Nat)
deriving DecidableEq

/-- Status enum of trusted-setup loading.  The Rust sources name
`cttEthTS_Success` and `cttEthTS_MissingOrInaccessibleFile`; the other
format/decode failures reach only the catch-all arm and are modelled as
an indexed family. -/
inductive ctt_eth_trusted_setup_status where
  | cttEthTS_Success
  | cttEthTS_MissingOrInaccessibleFile
  | otherError (code : Nat)
deriving DecidableEq

/-! ## Data model

The in-memory point and scalar types (`ctt_eth_bls_pubkey`, ...) are
opaque C structs at the Rust layer: the wrappers never inspect them.
The embedding represents each of them by a natural number; for the
spec-modelled engine this number is read as the discrete logarithm of
the point with respect to the group generator, which is faithful to the
spec's group model (section 3: every key/signature is a scalar multiple
of a generator or of a hashed-message point). -/

/-- A BLS public key (Rust `EthBlsPubKey`, an opaque engine struct). -/
abbrev EthBlsPubKey := Nat

/-- A BLS signature (Rust `EthBlsSignature`, an opaque engine struct). -/
abbrev EthBlsSignature := Nat

/-- A BLS secret key (Rust `EthBlsSecKey`, an opaque engine struct). -/
abbrev EthBlsSecKey := Nat

/-- A message: an arbitrary byte string (`&[u8]` in the Rust sources). -/
abbrev Msg := List Nat

/-- 32 bytes of caller-supplied secure randomness, opaque to the wrapper. -/
abbrev SecureRandomBytes := Nat

/-- A blob (`[u8; 4096*32]`), opaque to the wrapper. -/
abbrev Blob := Nat

/-- A KZG commitment (`[u8; 48]`), opaque to the wrapper. -/
abbrev Commitment := Nat

/-- A KZG opening proof (`[u8; 48]`), opaque to the wrapper. -/
abbrev KzgProof := Nat

/-- An opening challenge (`[u8; 32]`), opaque to the wrapper. -/
abbrev Challenge := Nat

/-- An evaluation at a challenge (`[u8; 32]`), opaque to the wrapper. -/
abbrev EvalAtChallenge := Nat

/-- A thread-pool handle (`&Threadpool` in Rust), opaque to the wrapper. -/
abbrev ThreadpoolRef := Nat

/-- Result of a Rust call that may panic: either a panic with its
message, or a normal return value. -/
inductive PanicOr (α : Type) where
  | panicked (msg : String)
  | returned (a : α)
deriving DecidableEq

/-- The message of the `.expect(...)` call guarding every thread-pool
access in `constantine-ethereum-kzg/src/lib.rs`. -/
def threadpoolExpectMsg : String := "Threadpool has been set"

/-! ## Engine interface consumed by the BLS wrappers

The `ctt_eth_bls_*` verification entry points live in the arithmetic
engine (the Nim core, outside the Rust crates).  At the FFI boundary
each of them receives raw array pointers together with a SINGLE element
count, exactly as in the Rust call sites.  Lists stand for the array
pointers; the count is a separate argument, as in the C signatures.

Modelled from the spec: section 5's determinism invariant states that
the parallel kernel of an operation computes the very same function as
its serial kernel (parallelism changes only wall-clock time), so one
field serves both the serial wrapper and its `_parallel` twin; the
thread-pool handle does not affect the result. -/
structure BlsEngine where
  verify : EthBlsPubKey → Msg → EthBlsSignature → ctt_eth_bls_status
  fast_aggregate_verify : List EthBlsPubKey → Nat → Msg → EthBlsSignature → ctt_eth_bls_status
  aggregate_verify : List EthBlsPubKey → List Msg → Nat → EthBlsSignature → ctt_eth_bls_status
  batch_verify : List EthBlsPubKey → List Msg → List EthBlsSignature → Nat →
      SecureRandomBytes → ctt_eth_bls_status

/-- The `ctt_eth_bls_deserialize_*` codec entry points of the engine:
each writes a decoded point into an out-parameter and returns a status.
The pair is (status returned, point written). -/
structure BlsCodecEngine where
  deserialize_pubkey_compressed : Nat → ctt_codec_ecc_status × EthBlsPubKey
  deserialize_pubkey_compressed_unchecked : Nat → ctt_codec_ecc_status × EthBlsPubKey
  deserialize_signature_compressed : Nat → ctt_codec_ecc_status × EthBlsSignature
  deserialize_signature_compressed_unchecked : Nat → ctt_codec_ecc_status × EthBlsSignature

namespace EthBlsSig

/-- Embedding of Rust `verify` (constantine-ethereum-bls-sig, lines 243-261):
calls `ctt_eth_bls_verify` and maps `cttEthBls_Success` to `Ok(true)`,
every other status to `Err(status)`. -/
def verify (e : BlsEngine) (pkey : EthBlsPubKey) (message : Msg)
    (sig : EthBlsSignature) : Except ctt_eth_bls_status Bool :=
  match e.verify pkey message sig with
  | .cttEthBls_Success => .ok true
  | s => .error s

/-- Embedding of Rust `fast_aggregate_verify` (lines 263-285): calls the
engine with `pubkeys.len()` as the single count, then dispatches on the
status. -/
def fast_aggregate_verify (e : BlsEngine) (pubkeys : List EthBlsPubKey)
    (message : Msg) (signature : EthBlsSignature) : Except ctt_eth_bls_status Bool :=
  match e.fast_aggregate_verify pubkeys pubkeys.length message signature with
  | .cttEthBls_Success => .ok true
  | s => .error s

/-- Embedding of Rust `aggregate_verify` (lines 308-332): builds spans
from `messages` (the spans are borrowed views, modelled as the byte
lists themselves), calls the engine with `pubkeys.len()` as the single
count — there is NO length comparison in the wrapper and the engine
receives only one count — then dispatches on the status. -/
def aggregate_verify (e : BlsEngine) (pubkeys : List EthBlsPubKey)
    (messages : List Msg) (aggregate_sig : EthBlsSignature) :
    Except ctt_eth_bls_status Bool :=
  match e.aggregate_verify pubkeys messages pubkeys.length aggregate_sig with
  | .cttEthBls_Success => .ok true
  | s => .error s

/-- Embedding of Rust `batch_verify` (lines 334-360): calls the engine
with `messages.len()` as the single count — again no length comparison
in the wrapper — then dispatches on the status. -/
def batch_verify (e : BlsEngine) (pubkeys : List EthBlsPubKey)
    (messages : List Msg) (signatures : List EthBlsSignature)
    (secure_random_bytes : SecureRandomBytes) : Except ctt_eth_bls_status Bool :=
  match e.batch_verify pubkeys messages signatures messages.length secure_random_bytes with
  | .cttEthBls_Success => .ok true
  | s => .error s

/-- Embedding of Rust `batch_verify_parallel` (lines 362-390): same as
`batch_verify` but the engine call additionally receives the
thread-pool context (which, per the determinism invariant, does not
change the computed function). -/
def batch_verify_parallel (e : BlsEngine) (_tp : ThreadpoolRef)
    (pubkeys : List EthBlsPubKey) (messages : List Msg)
    (signatures : List EthBlsSignature) (secure_random_bytes : SecureRandomBytes) :
    Except ctt_eth_bls_status Bool :=
  match e.batch_verify pubkeys messages signatures messages.length secure_random_bytes with
  | .cttEthBls_Success => .ok true
  | s => .error s

/-- Embedding of Rust `deserialize_pubkey_compressed` (lines 196-210):
both `cttCodecEcc_Success` and `cttCodecEcc_PointAtInfinity` are mapped
to `Ok` with the point the engine wrote; every other status becomes
`Err(status)`. -/
def deserialize_pubkey_compressed (e : BlsCodecEngine) (src : Nat) :
    Except ctt_codec_ecc_status EthBlsPubKey :=
  match e.deserialize_pubkey_compressed src with
  | (.cttCodecEcc_Success, pt) => .ok pt
  | (.cttCodecEcc_PointAtInfinity, pt) => .ok pt
  | (s, _) => .error s

/-- Embedding of Rust `deserialize_pubkey_compressed_unchecked`
(lines 160-176): same dispatch as the checked variant. -/
def deserialize_pubkey_compressed_unchecked (e : BlsCodecEngine) (src : Nat) :
    Except ctt_codec_ecc_status EthBlsPubKey :=
  match e.deserialize_pubkey_compressed_unchecked src with
  | (.cttCodecEcc_Success, pt) => .ok pt
  | (.cttCodecEcc_PointAtInfinity, pt) => .ok pt
  | (s, _) => .error s

/-- Embedding of Rust `deserialize_signature_compressed` (lines 212-228). -/
def deserialize_signature_compressed (e : BlsCodecEngine) (src : Nat) :
    Except ctt_codec_ecc_status EthBlsSignature :=
  match e.deserialize_signature_compressed src with
  | (.cttCodecEcc_Success, pt) => .ok pt
  | (.cttCodecEcc_PointAtInfinity, pt) => .ok pt
  | (s, _) => .error s

/-- Embedding of Rust `deserialize_signature_compressed_unchecked`
(lines 178-194). -/
def deserialize_signature_compressed_unchecked (e : BlsCodecEngine) (src : Nat) :
    Except ctt_codec_ecc_status EthBlsSignature :=
  match e.deserialize_signature_compressed_unchecked src with
  | (.cttCodecEcc_Success, pt) => .ok pt
  | (.cttCodecEcc_PointAtInfinity, pt) => .ok pt
  | (s, _) => .error s

end EthBlsSig

/-- A concrete engine instance, standing for one possible behaviour of
the engine at the FFI boundary (the engine receives a single element
count, so it cannot distinguish mismatched caller-side array lengths);
used to exhibit that the wrappers consult the engine. -/
def blsOracleSuccess : BlsEngine where
  verify := fun _ _ _ => .cttEthBls_Success
  fast_aggregate_verify := fun _ _ _ _ => .cttEthBls_Success
  aggregate_verify := fun _ _ _ _ => .cttEthBls_Success
  batch_verify := fun _ _ _ _ _ => .cttEthBls_Success

/-! ## KZG trusted-setup context and wrappers
(from constantine-ethereum-kzg/src/lib.rs) -/

/-- Embedding of Rust `EthKzgContext`: a raw engine context handle plus
an optional borrowed thread pool. -/
structure EthKzgContext where
  ctx : Nat
  threadpool : Option ThreadpoolRef
deriving DecidableEq

/-- Embedding of Rust `EthKzgContextBuilder`. -/
structure EthKzgContextBuilder where
  ctx : Option Nat
  threadpool : Option ThreadpoolRef
deriving DecidableEq

/-- Embedding of Rust `EthKzgContext::builder()`: both fields start
unset. -/
def EthKzgContext.builder : EthKzgContextBuilder :=
  { ctx := none, threadpool := none }

/-- Embedding of Rust `EthKzgContextBuilder::load_trusted_setup`
(lines 37-76).  The path handling and the `ctt_eth_trusted_setup_load`
call are summarised by `engineLoad`: the status the engine returned
together with the context handle it wrote on success.  On success the
builder keeps its thread-pool field and records the handle; any other
status is returned as the error. -/
def EthKzgContextBuilder.load_trusted_setup (b : EthKzgContextBuilder)
    (engineLoad : Except ctt_eth_trusted_setup_status Nat) :
    Except ctt_eth_trusted_setup_status EthKzgContextBuilder :=
  match engineLoad with
  | .ok ctx => .ok { ctx := some ctx, threadpool := b.threadpool }
  | .error s => .error s

/-- Embedding of Rust `EthKzgContextBuilder::set_threadpool`
(lines 78-83): copies all other parameters and sets the thread pool. -/
def EthKzgContextBuilder.set_threadpool (b : EthKzgContextBuilder)
    (tp : ThreadpoolRef) : EthKzgContextBuilder :=
  { ctx := b.ctx, threadpool := some tp }

/-- Embedding of Rust `EthKzgContextBuilder::build` (lines 85-91):
fails with `cttEthTS_MissingOrInaccessibleFile` when no setup was
loaded. -/
def EthKzgContextBuilder.build (b : EthKzgContextBuilder) :
    Except ctt_eth_trusted_setup_status EthKzgContext :=
  match b.ctx with
  | some c => .ok { ctx := c, threadpool := b.threadpool }
  | none => .error .cttEthTS_MissingOrInaccessibleFile

/-- The `ctt_eth_kzg_*` engine entry points consumed by the KZG
wrappers.  Each takes the raw context handle first; entry points with
out-parameters return (status, value written).

Modelled from the spec: section 5's determinism invariant states that a
`_parallel` kernel computes the very same function as its serial twin
(parallelism changes only wall-clock time), so one field serves both
wrappers; the thread-pool handle does not affect the result. -/
structure KzgEngine where
  blob_to_kzg_commitment : Nat → Blob → ctt_eth_kzg_status × Commitment
  compute_kzg_proof : Nat → Blob → Challenge →
      ctt_eth_kzg_status × (KzgProof × EvalAtChallenge)
  compute_blob_kzg_proof : Nat → Blob → Commitment → ctt_eth_kzg_status × KzgProof
  verify_kzg_proof : Nat → Commitment → Challenge → EvalAtChallenge →
      KzgProof → ctt_eth_kzg_status
  verify_blob_kzg_proof : Nat → Blob → Commitment → KzgProof → ctt_eth_kzg_status
  verify_blob_kzg_proof_batch : Nat → List Blob → List Commitment →
      List KzgProof → Nat → SecureRandomBytes → ctt_eth_kzg_status

/-- The three-way status dispatch shared by the KZG `verify_*` wrappers
(source lines 168-172, 211-215, 240-244, 334-338, 364-368):
`Success => Ok(true)`, `VerificationFailure => Ok(false)`, catch-all
`s => Err(s)`. -/
def kzgVerifyDispatch (s : ctt_eth_kzg_status) : Except ctt_eth_kzg_status Bool :=
  match s with
  | .cttEthKzg_Success => .ok true
  | .cttEthKzg_VerificationFailure => .ok false
  | s => .error s

namespace EthKzg

/-- Embedding of Rust `blob_to_kzg_commitment` (lines 107-124). -/
def blob_to_kzg_commitment (e : KzgEngine) (self : EthKzgContext)
    (blob : Blob) : Except ctt_eth_kzg_status Commitment :=
  match e.blob_to_kzg_commitment self.ctx blob with
  | (.cttEthKzg_Success, r) => .ok r
  | (s, _) => .error s

/-- Embedding of Rust `compute_kzg_proof` (lines 126-149). -/
def compute_kzg_proof (e : KzgEngine) (self : EthKzgContext)
    (blob : Blob) (z_challenge : Challenge) :
    Except ctt_eth_kzg_status (KzgProof × EvalAtChallenge) :=
  match e.compute_kzg_proof self.ctx blob z_challenge with
  | (.cttEthKzg_Success, r) => .ok r
  | (s, _) => .error s

/-- Embedding of Rust `verify_kzg_proof` (lines 151-173). -/
def verify_kzg_proof (e : KzgEngine) (self : EthKzgContext)
    (commitment : Commitment) (z_challenge : Challenge)
    (y_eval_at_challenge : EvalAtChallenge) (proof : KzgProof) :
    Except ctt_eth_kzg_status Bool :=
  match e.verify_kzg_proof self.ctx commitment z_challenge y_eval_at_challenge proof with
  | .cttEthKzg_Success => .ok true
  | .cttEthKzg_VerificationFailure => .ok false
  | s => .error s

/-- Embedding of Rust `compute_blob_kzg_proof` (lines 175-194). -/
def compute_blob_kzg_proof (e : KzgEngine) (self : EthKzgContext)
    (blob : Blob) (commitment : Commitment) : Except ctt_eth_kzg_status KzgProof :=
  match e.compute_blob_kzg_proof self.ctx blob commitment with
  | (.cttEthKzg_Success, r) => .ok r
  | (s, _) => .error s

/-- Embedding of Rust `verify_blob_kzg_proof` (lines 196-216). -/
def verify_blob_kzg_proof (e : KzgEngine) (self : EthKzgContext)
    (blob : Blob) (commitment : Commitment) (proof : KzgProof) :
    Except ctt_eth_kzg_status Bool :=
  match e.verify_blob_kzg_proof self.ctx blob commitment proof with
  | .cttEthKzg_Success => .ok true
  | .cttEthKzg_VerificationFailure => .ok false
  | s => .error s

/-- Embedding of Rust `verify_blob_kzg_proof_batch` (lines 218-245):
the length comparison happens in the wrapper, BEFORE the engine call;
the engine then receives `blobs.len()` as the single count. -/
def verify_blob_kzg_proof_batch (e : KzgEngine) (self : EthKzgContext)
    (blobs : List Blob) (commitments : List Commitment) (proofs : List KzgProof)
    (secure_random_bytes : SecureRandomBytes) : Except ctt_eth_kzg_status Bool :=
  if blobs.length ≠ commitments.length ∨ blobs.length ≠ proofs.length then
    .error .cttEthKzg_InputsLengthsMismatch
  else
    match e.verify_blob_kzg_proof_batch self.ctx blobs commitments proofs
        blobs.length secure_random_bytes with
    | .cttEthKzg_Success => .ok true
    | .cttEthKzg_VerificationFailure => .ok false
    | s => .error s

/-- Embedding of Rust `blob_to_kzg_commitment_parallel` (lines 250-268):
`self.threadpool.expect("Threadpool has been set")` panics when the
context was built without a thread pool; otherwise the engine is called
and the result dispatched as in the serial twin. -/
def blob_to_kzg_commitment_parallel (e : KzgEngine) (self : EthKzgContext)
    (blob : Blob) : PanicOr (Except ctt_eth_kzg_status Commitment) :=
  match self.threadpool with
  | none => .panicked threadpoolExpectMsg
  | some _tp =>
    .returned (match e.blob_to_kzg_commitment self.ctx blob with
      | (.cttEthKzg_Success, r) => .ok r
      | (s, _) => .error s)

/-- Embedding of Rust `compute_kzg_proof_parallel` (lines 270-294). -/
def compute_kzg_proof_parallel (e : KzgEngine) (self : EthKzgContext)
    (blob : Blob) (z_challenge : Challenge) :
    PanicOr (Except ctt_eth_kzg_status (KzgProof × EvalAtChallenge)) :=
  match self.threadpool with
  | none => .panicked threadpoolExpectMsg
  | some _tp =>
    .returned (match e.compute_kzg_proof self.ctx blob z_challenge with
      | (.cttEthKzg_Success, r) => .ok r
      | (s, _) => .error s)

/-- Embedding of Rust `compute_blob_kzg_proof_parallel` (lines 296-316). -/
def compute_blob_kzg_proof_parallel (e : KzgEngine) (self : EthKzgContext)
    (blob : Blob) (commitment : Commitment) :
    PanicOr (Except ctt_eth_kzg_status KzgProof) :=
  match self.threadpool with
  | none => .panicked threadpoolExpectMsg
  | some _tp =>
    .returned (match e.compute_blob_kzg_proof self.ctx blob commitment with
      | (.cttEthKzg_Success, r) => .ok r
      | (s, _) => .error s)

/-- Embedding of Rust `verify_blob_kzg_proof_parallel` (lines 318-339). -/
def verify_blob_kzg_proof_parallel (e : KzgEngine) (self : EthKzgContext)
    (blob : Blob) (commitment : Commitment) (proof : KzgProof) :
    PanicOr (Except ctt_eth_kzg_status Bool) :=
  match self.threadpool with
  | none => .panicked threadpoolExpectMsg
  | some _tp =>
    .returned (match e.verify_blob_kzg_proof self.ctx blob commitment proof with
      | .cttEthKzg_Success => .ok true
      | .cttEthKzg_VerificationFailure => .ok false
      | s => .error s)

/-- Embedding of Rust `verify_blob_kzg_proof_batch_parallel`
(lines 341-369): the length comparison and its early `return Err(...)`
come BEFORE the `unsafe` block, hence before the thread-pool `expect`
and before the engine call. -/
def verify_blob_kzg_proof_batch_parallel (e : KzgEngine) (self : EthKzgContext)
    (blobs : List Blob) (commitments : List Commitment) (proofs : List KzgProof)
    (secure_random_bytes : SecureRandomBytes) :
    PanicOr (Except ctt_eth_kzg_status Bool) :=
  if blobs.length ≠ commitments.length ∨ blobs.length ≠ proofs.length then
    .returned (.error .cttEthKzg_InputsLengthsMismatch)
  else
    match self.threadpool with
    | none => .panicked threadpoolExpectMsg
    | some _tp =>
      .returned (match e.verify_blob_kzg_proof_batch self.ctx blobs commitments proofs
          blobs.length secure_random_bytes with
        | .cttEthKzg_Success => .ok true
        | .cttEthKzg_VerificationFailure => .ok false
        | s => .error s)

end EthKzg

/-- A concrete KZG engine instance (all entry points report success and
write 0), used to instantiate the engine-generic theorems at concrete
inputs. -/
def kzgEngineZero : KzgEngine where
  blob_to_kzg_commitment := fun _ _ => (.cttEthKzg_Success, 0)
  compute_kzg_proof := fun _ _ _ => (.cttEthKzg_Success, (0, 0))
  compute_blob_kzg_proof := fun _ _ _ => (.cttEthKzg_Success, 0)
  verify_kzg_proof := fun _ _ _ _ _ => .cttEthKzg_Success
  verify_blob_kzg_proof := fun _ _ _ _ => .cttEthKzg_Success
  verify_blob_kzg_proof_batch := fun _ _ _ _ _ _ => .cttEthKzg_Success

/-- A context built through the builder without `set_threadpool`:
its thread-pool field is `none`. -/
def ctxNoPool : EthKzgContext := { ctx := 0, threadpool := none }

/-- A context with a thread pool attached. -/
def ctxWithPool : EthKzgContext := { ctx := 0, threadpool := some 0 }

/-! ## Spec-modelled BLS engine

The `ctt_eth_bls_*` verification kernels are implemented in the
arithmetic engine (the Nim core), which is not part of the Rust crates;
they are modelled here from the specification.  The group model is the
discrete-log representation: a point of either group is its discrete
logarithm with respect to the group generator, modulo the group order
`r`; group addition is addition of logarithms, and the pairing of two
points is the product of their logarithms, so the pairing equation
`e(pk, H(m)) == e(G, sig)` of section 4.2 reads
`pk * h m ≡ 1 * sig  (mod r)`.  The point at infinity is logarithm 0.
The hash-to-curve map is a black box `h` from messages to the logarithm
of the hashed point. -/

namespace Model

/-- Modelled from the spec (section 4.2, `verify`): fails with
`PointAtInfinity` if the signature or the public key is the identity,
with `VerificationFailure` when the pairing equation
`e(pk, H(message)) == e(G, signature)` does not hold, and succeeds
otherwise. -/
def ctt_eth_bls_verify (r : Nat) (h : Msg → Nat) (pk : EthBlsPubKey)
    (message : Msg) (sig : EthBlsSignature) : ctt_eth_bls_status :=
  if pk % r = 0 ∨ sig % r = 0 then .cttEthBls_PointAtInfinity
  else if (pk * h message) % r = sig % r then .cttEthBls_Success
  else .cttEthBls_VerificationFailure

/-- Modelled from the spec (section 4.2, `fast_aggregate_verify`):
fails with `ZeroLengthAggregation` on an empty input, otherwise
aggregates the public keys by group addition into one key and performs
a single verification.  Reading `n` elements from the array pointer is
modelled by `List.take n`. -/
def ctt_eth_bls_fast_aggregate_verify (r : Nat) (h : Msg → Nat)
    (pubkeys : List EthBlsPubKey) (n : Nat) (message : Msg)
    (sig : EthBlsSignature) : ctt_eth_bls_status :=
  if n = 0 then .cttEthBls_ZeroLengthAggregation
  else ctt_eth_bls_verify r h ((pubkeys.take n).foldl (· + ·) 0 % r) message sig

/-- Modelled from the spec (section 4.2, `aggregate_verify`): fails
with `ZeroLengthAggregation` on an empty input, rejects an identity
aggregate signature, and otherwise evaluates the product of pairings
`∏ e(pk_i, H(msg_i))` against `e(G, signature)` in one multi-pairing
computation, which in the discrete-log model is
`Σ pk_i * h msg_i ≡ sig  (mod r)`.  The engine receives a single count
`n`; reading `n` elements from an array pointer is modelled by
`List.take n`. -/
def ctt_eth_bls_aggregate_verify (r : Nat) (h : Msg → Nat)
    (pubkeys : List EthBlsPubKey) (messages : List Msg) (n : Nat)
    (sig : EthBlsSignature) : ctt_eth_bls_status :=
  if n = 0 then .cttEthBls_ZeroLengthAggregation
  else if sig % r = 0 then .cttEthBls_PointAtInfinity
  else if ((pubkeys.take n).zip (messages.take n)).foldl
      (fun acc pm => (acc + pm.1 * h pm.2) % r) 0 = sig % r then .cttEthBls_Success
  else .cttEthBls_VerificationFailure

/-- Modelled from the spec (section 4.2, `batch_verify`): the i-th
pseudorandom nonzero coefficient derived deterministically from the
32-byte seed, a stand-in for the keyed hash chain. -/
def batch_coeff (r : Nat) (seed : SecureRandomBytes) (i : Nat) : Nat :=
  (seed + i) % (r - 1) + 1

/-- Modelled from the spec (section 4.2, `batch_verify`): checks
`∏ e(r_i·pk_i, H(msg_i)) == e(G, Σ r_i·signature_i)` with coefficients
`r_i` derived from the seed; in the discrete-log model
`Σ c_i * pk_i * h msg_i ≡ Σ c_i * sig_i  (mod r)`. -/
def ctt_eth_bls_batch_verify (r : Nat) (h : Msg → Nat)
    (pubkeys : List EthBlsPubKey) (messages : List Msg)
    (signatures : List EthBlsSignature) (n : Nat)
    (seed : SecureRandomBytes) : ctt_eth_bls_status :=
  if n = 0 then .cttEthBls_ZeroLengthAggregation
  else if (pubkeys.take n).any (fun pk => pk % r = 0)
      ∨ (signatures.take n).any (fun sg => sg % r = 0) then .cttEthBls_PointAtInfinity
  else
    let triples := ((pubkeys.take n).zip ((messages.take n).zip (signatures.take n))).enum
    let lhs := triples.foldl
      (fun acc t => (acc + batch_coeff r seed t.1 * t.2.1 * h t.2.2.1) % r) 0
    let rhs := triples.foldl
      (fun acc t => (acc + batch_coeff r seed t.1 * t.2.2.2) % r) 0
    if lhs = rhs then .cttEthBls_Success else .cttEthBls_VerificationFailure

/-- The spec-modelled BLS engine, bundling the modelled kernels. -/
def blsEngineModel (r : Nat) (h : Msg → Nat) : BlsEngine where
  verify := ctt_eth_bls_verify r h
  fast_aggregate_verify := ctt_eth_bls_fast_aggregate_verify r h
  aggregate_verify := ctt_eth_bls_aggregate_verify r h
  batch_verify := ctt_eth_bls_batch_verify r h

/-- Modelled from the spec (section 4.2, `derive_public_key`):
`pk = sk * G`, i.e. logarithm `sk` modulo the group order. -/
def derive_pubkey (r : Nat) (sk : EthBlsSecKey) : EthBlsPubKey := sk % r

/-- Modelled from the spec (section 4.2, `sign`): hashes the message to
a point `H` of the signature group and computes `signature = sk * H`,
i.e. logarithm `sk * h message` modulo the group order. -/
def sign (r : Nat) (h : Msg → Nat) (sk : EthBlsSecKey) (message : Msg) :
    EthBlsSignature :=
  (sk * h message) % r

/-- A byte string folded into the natural number it encodes big-endian. -/
def msgToNat (m : Msg) : Nat := m.foldl (fun acc b => acc * 256 + b) 0

/-- Modelled from the spec (section 4.2): the internal hash-to-curve
map, treated as a black box producing a point of the signature group;
in the discrete-log model, a map from messages to nonzero logarithms
(the hashed point is a point of the prime-order subgroup used as the
base of a scalar multiplication, not the identity). -/
def h_model (r : Nat) (m : Msg) : Nat := msgToNat m % (r - 1) + 1

/-- Modelled from the spec (section 4.1, `deserialize_secret_key`):
fails if the encoded big-endian integer is zero or not below the group
order.  `b` is the value of the 32-byte encoding. -/
def deserialize_seckey (r : Nat) (b : Nat) : Except ctt_codec_scalar_status EthBlsSecKey :=
  if b = 0 then .error .cttCodecScalar_Zero
  else if r ≤ b then .error .cttCodecScalar_ScalarLargerThanCurveOrder
  else .ok b

/-! ## Spec-modelled compressed-point codec

The codec (`ctt_eth_bls_serialize_*` / `ctt_eth_bls_deserialize_*`)
lives in the engine; it is modelled here from the specification
(sections 4.1 and 6): fixed-width compressed encodings, 48 bytes for a
public key and 96 bytes for a signature, with the standard flag bits in
the top three bits of the leading byte: bit 7 "compressed", bit 6
"infinity", bit 5 "sign of y".  A byte string is represented by the
natural number it encodes big-endian; curve and subgroup membership of
a decoded abscissa is a caller-supplied predicate, since the curve
equation is the engine's private arithmetic. -/

/-- 2 to the 381: the abscissa field of a 48-byte compressed encoding. -/
def POW381 : Nat := 2 ^ 381

/-- 2 to the 384: the size of a 48-byte encoding. -/
def POW384 : Nat := 2 ^ 384

/-- 2 to the 765: the position of the flag bits in a 96-byte encoding. -/
def POW765 : Nat := 2 ^ 765

/-- 2 to the 768: the size of a 96-byte encoding. -/
def POW768 : Nat := 2 ^ 768

/-- A decoded public key: the point at infinity, or a compressed point
given by the sign bit of its ordinate and its abscissa. -/
inductive G1Repr where
  | infinity
  | point (signBit : Nat) (x : Nat)
deriving DecidableEq

/-- A decoded signature: the point at infinity, or a compressed point
given by the sign bit and the two coordinates of its abscissa over the
quadratic extension field. -/
inductive G2Repr where
  | infinity
  | point (signBit : Nat) (x1 : Nat) (x0 : Nat)
deriving DecidableEq

/-- Modelled from the spec (sections 4.1 and 6): deserialization of a
48-byte compressed public-key encoding of value `b`.  The compressed
flag must be set; the infinity encoding must be canonical (no sign bit,
zero abscissa); a finite abscissa must be below the field modulus `p`
and satisfy the membership predicate (curve equation plus subgroup
check, the engine's private arithmetic). -/
def deserialize_pubkey_compressed (p : Nat) (member : Nat → Bool) (b : Nat) :
    Except ctt_codec_ecc_status G1Repr :=
  let flags := b / POW381
  let x := b % POW381
  if flags / 4 % 2 ≠ 1 then .error .cttCodecEcc_InvalidEncoding
  else if flags / 2 % 2 = 1 then
    if flags % 2 = 0 ∧ x = 0 then .ok .infinity
    else .error .cttCodecEcc_InvalidEncoding
  else if p ≤ x then .error .cttCodecEcc_CoordinateGreaterThanOrEqualModulus
  else if member x then .ok (.point (flags % 2) x)
  else .error .cttCodecEcc_PointNotOnCurve

/-- Modelled from the spec (sections 4.1 and 6): serialization of a
public key into the single canonical compressed 48-byte encoding. -/
def serialize_pubkey_compressed : G1Repr → Nat
  | .infinity => 6 * POW381
  | .point signBit x => (4 + signBit) * POW381 + x

/-- Modelled from the spec (sections 4.1 and 6): deserialization of a
96-byte compressed signature encoding of value `b`; as for public keys,
with the abscissa split into its two coordinates over the quadratic
extension field, each below the field modulus `p`. -/
def deserialize_signature_compressed (p : Nat) (member : Nat → Nat → Bool) (b : Nat) :
    Except ctt_codec_ecc_status G2Repr :=
  let flags := b / POW765
  let x1 := b / POW384 % POW381
  let x0 := b % POW384
  if flags / 4 % 2 ≠ 1 then .error .cttCodecEcc_InvalidEncoding
  else if flags / 2 % 2 = 1 then
    if flags % 2 = 0 ∧ x1 = 0 ∧ x0 = 0 then .ok .infinity
    else .error .cttCodecEcc_InvalidEncoding
  else if p ≤ x1 ∨ p ≤ x0 then .error .cttCodecEcc_CoordinateGreaterThanOrEqualModulus
  else if member x1 x0 then .ok (.point (flags % 2) x1 x0)
  else .error .cttCodecEcc_PointNotOnCurve

/-- Modelled from the spec (sections 4.1 and 6): serialization of a
signature into the single canonical compressed 96-byte encoding. -/
def serialize_signature_compressed : G2Repr → Nat
  | .infinity => 6 * POW765
  | .point signBit x1 x0 => ((4 + signBit) * POW381 + x1) * POW384 + x0

end Model

/-- A concrete codec-engine instance whose entry points all report
`cttCodecEcc_PointAtInfinity` and write the point 0, used to
instantiate the codec-generic theorems at concrete inputs. -/
def blsCodecOracleInf : BlsCodecEngine where
  deserialize_pubkey_compressed := fun _ => (.cttCodecEcc_PointAtInfinity, 0)
  deserialize_pubkey_compressed_unchecked := fun _ => (.cttCodecEcc_PointAtInfinity, 0)
  deserialize_signature_compressed := fun _ => (.cttCodecEcc_PointAtInfinity, 0)
  deserialize_signature_compressed_unchecked := fun _ => (.cttCodecEcc_PointAtInfinity, 0)

/-! # Theorems -/

/-- Claim C1: the claim states that `aggregate_verify` with
`len(pubkeys) != len(messages)` (and `batch_verify` with lengths not
all equal) fails with `InputsLengthsMismatch` without invoking the
engine.  The Rust wrappers contain no length comparison: they
unconditionally call the engine with a single element count
(`pubkeys.len()` for `aggregate_verify`, `messages.len()` for
`batch_verify`), so the engine — which cannot compare lengths it never
receives — is invoked, and for an engine run that reports success the
wrapper returns `Ok(true)` on mismatched inputs instead of the claimed
error. -/
theorem C1_length_mismatch_reaches_engine :
    EthBlsSig.aggregate_verify blsOracleSuccess [1] [] 0 = .ok true ∧
    EthBlsSig.aggregate_verify blsOracleSuccess [1] [] 0
      ≠ .error .cttEthBls_InputsLengthsMismatch ∧
    EthBlsSig.batch_verify blsOracleSuccess [] [[0]] [] 0 = .ok true ∧
    EthBlsSig.batch_verify blsOracleSuccess [] [[0]] [] 0
      ≠ .error .cttEthBls_InputsLengthsMismatch :=
  ⟨rfl, fun h => Except.noConfusion h, rfl, fun h => Except.noConfusion h⟩

/-- Claim C2: `fast_aggregate_verify` on an empty public-key list and
`aggregate_verify` on empty lists fail with `ZeroLengthAggregation`
and never return `Ok(true)`, for every message and signature. -/
theorem C2_empty_aggregation_rejected (r : Nat) (h : Msg → Nat) (m : Msg)
    (sig : EthBlsSignature) :
    EthBlsSig.fast_aggregate_verify (Model.blsEngineModel r h) [] m sig
      = .error .cttEthBls_ZeroLengthAggregation ∧
    EthBlsSig.aggregate_verify (Model.blsEngineModel r h) [] [] sig
      = .error .cttEthBls_ZeroLengthAggregation ∧
    EthBlsSig.fast_aggregate_verify (Model.blsEngineModel r h) [] m sig ≠ .ok true ∧
    EthBlsSig.aggregate_verify (Model.blsEngineModel r h) [] [] sig ≠ .ok true :=
  ⟨rfl, rfl, fun hh => Except.noConfusion hh, fun hh => Except.noConfusion hh⟩

/-- Claim C3: for every engine behaviour, every context and all inputs,
`verify_kzg_proof` and `verify_blob_kzg_proof` dispatch the engine
status through the same three-way map: `VerificationFailure` becomes
`Ok(false)` — not an error — `Success` becomes `Ok(true)`, and every
other status (the decode/format failures) becomes `Err(status)`, so
the two outcomes are distinguishable by type. -/
theorem C3_verification_failure_is_ok_false (e : KzgEngine) (ctx : EthKzgContext)
    (cm : Commitment) (z : Challenge) (y : EvalAtChallenge) (pf : KzgProof)
    (blob : Blob) :
    EthKzg.verify_kzg_proof e ctx cm z y pf
      = kzgVerifyDispatch (e.verify_kzg_proof ctx.ctx cm z y pf) ∧
    EthKzg.verify_blob_kzg_proof e ctx blob cm pf
      = kzgVerifyDispatch (e.verify_blob_kzg_proof ctx.ctx blob cm pf) ∧
    kzgVerifyDispatch .cttEthKzg_VerificationFailure = .ok false ∧
    kzgVerifyDispatch .cttEthKzg_Success = .ok true ∧
    ∀ s : ctt_eth_kzg_status, s ≠ .cttEthKzg_Success →
      s ≠ .cttEthKzg_VerificationFailure → kzgVerifyDispatch s = .error s := by
  refine ⟨?_, ?_, rfl, rfl, ?_⟩
  · unfold EthKzg.verify_kzg_proof kzgVerifyDispatch
    cases e.verify_kzg_proof ctx.ctx cm z y pf <;> rfl
  · unfold EthKzg.verify_blob_kzg_proof kzgVerifyDispatch
    cases e.verify_blob_kzg_proof ctx.ctx blob cm pf <;> rfl
  · intro s h1 h2
    cases s
    · exact absurd rfl h1
    · exact absurd rfl h2
    · rfl
    · rfl

/-- Witness for C3 at a concrete status. -/
theorem C3_verification_failure_is_ok_false_witness :
    kzgVerifyDispatch (.otherError 7) = .error (.otherError 7) :=
  (C3_verification_failure_is_ok_false kzgEngineZero ctxNoPool 0 0 0 0 0).2.2.2.2
    (.otherError 7) (fun h => nomatch h) (fun h => nomatch h)

/-- Claim C4: for every engine behaviour (hence before and independent
of any engine call), `verify_blob_kzg_proof_batch` and
`verify_blob_kzg_proof_batch_parallel` return `InputsLengthsMismatch`
whenever the three input lengths are not all equal. -/
theorem C4_kzg_batch_length_mismatch (e : KzgEngine) (ctx : EthKzgContext)
    (blobs : List Blob) (cms : List Commitment) (pfs : List KzgProof)
    (srb : SecureRandomBytes)
    (hlen : blobs.length ≠ cms.length ∨ blobs.length ≠ pfs.length) :
    EthKzg.verify_blob_kzg_proof_batch e ctx blobs cms pfs srb
      = .error .cttEthKzg_InputsLengthsMismatch ∧
    EthKzg.verify_blob_kzg_proof_batch_parallel e ctx blobs cms pfs srb
      = .returned (.error .cttEthKzg_InputsLengthsMismatch) := by
  constructor
  · unfold EthKzg.verify_blob_kzg_proof_batch
    rw [if_pos hlen]
  · unfold EthKzg.verify_blob_kzg_proof_batch_parallel
    rw [if_pos hlen]

/-- Witness for C4 at a concrete mismatched input. -/
theorem C4_kzg_batch_length_mismatch_witness :
    ([0] : List Blob).length ≠ ([] : List Commitment).length ∧
    EthKzg.verify_blob_kzg_proof_batch kzgEngineZero ctxNoPool [0] [] [] 0
      = .error .cttEthKzg_InputsLengthsMismatch ∧
    EthKzg.verify_blob_kzg_proof_batch_parallel kzgEngineZero ctxNoPool [0] [] [] 0
      = .returned (.error .cttEthKzg_InputsLengthsMismatch) := by
  have := C4_kzg_batch_length_mismatch kzgEngineZero ctxNoPool [0] [] [] 0
    (Or.inl (by decide))
  exact ⟨by decide, this.1, this.2⟩

/-- Claim C9: every BLS deserialization path maps the engine's
`cttCodecEcc_PointAtInfinity` status to `Ok` with the decoded value,
rather than propagating it as an error. -/
theorem C9_point_at_infinity_accepted (e : BlsCodecEngine) (b48 b96 : Nat)
    (pk : EthBlsPubKey) (sig : EthBlsSignature) :
    (e.deserialize_pubkey_compressed b48 = (.cttCodecEcc_PointAtInfinity, pk) →
      EthBlsSig.deserialize_pubkey_compressed e b48 = .ok pk) ∧
    (e.deserialize_pubkey_compressed_unchecked b48 = (.cttCodecEcc_PointAtInfinity, pk) →
      EthBlsSig.deserialize_pubkey_compressed_unchecked e b48 = .ok pk) ∧
    (e.deserialize_signature_compressed b96 = (.cttCodecEcc_PointAtInfinity, sig) →
      EthBlsSig.deserialize_signature_compressed e b96 = .ok sig) ∧
    (e.deserialize_signature_compressed_unchecked b96 = (.cttCodecEcc_PointAtInfinity, sig) →
      EthBlsSig.deserialize_signature_compressed_unchecked e b96 = .ok sig) := by
  refine ⟨?_, ?_, ?_, ?_⟩ <;> intro hE
  · unfold EthBlsSig.deserialize_pubkey_compressed
    rw [hE]
  · unfold EthBlsSig.deserialize_pubkey_compressed_unchecked
    rw [hE]
  · unfold EthBlsSig.deserialize_signature_compressed
    rw [hE]
  · unfold EthBlsSig.deserialize_signature_compressed_unchecked
    rw [hE]

/-- Witness for C9 at a concrete codec engine and input. -/
theorem C9_point_at_infinity_accepted_witness :
    blsCodecOracleInf.deserialize_pubkey_compressed 0
      = (.cttCodecEcc_PointAtInfinity, 0) ∧
    EthBlsSig.deserialize_pubkey_compressed blsCodecOracleInf 0 = .ok 0 :=
  ⟨rfl, (C9_point_at_infinity_accepted blsCodecOracleInf 0 0 0 0).1 rfl⟩

/-- Claim C5: for every engine behaviour and all inputs,
`batch_verify_parallel` returns the same result as `batch_verify`, and
each KZG `_parallel` operation on a context with a thread pool attached
returns exactly the result of its serial twin. -/
theorem C5_parallel_equals_serial (e : BlsEngine) (ek : KzgEngine)
    (tp : ThreadpoolRef) (ctx : EthKzgContext)
    (pubkeys : List EthBlsPubKey) (messages : List Msg)
    (signatures : List EthBlsSignature) (srb : SecureRandomBytes)
    (blob : Blob) (z : Challenge) (cm : Commitment) (pf : KzgProof)
    (blobs : List Blob) (cms : List Commitment) (pfs : List KzgProof) :
    EthBlsSig.batch_verify_parallel e tp pubkeys messages signatures srb
      = EthBlsSig.batch_verify e pubkeys messages signatures srb ∧
    (ctx.threadpool = some tp →
      EthKzg.blob_to_kzg_commitment_parallel ek ctx blob
        = .returned (EthKzg.blob_to_kzg_commitment ek ctx blob) ∧
      EthKzg.compute_kzg_proof_parallel ek ctx blob z
        = .returned (EthKzg.compute_kzg_proof ek ctx blob z) ∧
      EthKzg.compute_blob_kzg_proof_parallel ek ctx blob cm
        = .returned (EthKzg.compute_blob_kzg_proof ek ctx blob cm) ∧
      EthKzg.verify_blob_kzg_proof_parallel ek ctx blob cm pf
        = .returned (EthKzg.verify_blob_kzg_proof ek ctx blob cm pf) ∧
      EthKzg.verify_blob_kzg_proof_batch_parallel ek ctx blobs cms pfs srb
        = .returned (EthKzg.verify_blob_kzg_proof_batch ek ctx blobs cms pfs srb)) := by
  refine ⟨rfl, fun htp => ⟨?_, ?_, ?_, ?_, ?_⟩⟩
  · unfold EthKzg.blob_to_kzg_commitment_parallel EthKzg.blob_to_kzg_commitment
    rw [htp]
  · unfold EthKzg.compute_kzg_proof_parallel EthKzg.compute_kzg_proof
    rw [htp]
  · unfold EthKzg.compute_blob_kzg_proof_parallel EthKzg.compute_blob_kzg_proof
    rw [htp]
  · unfold EthKzg.verify_blob_kzg_proof_parallel EthKzg.verify_blob_kzg_proof
    rw [htp]
  · unfold EthKzg.verify_blob_kzg_proof_batch_parallel EthKzg.verify_blob_kzg_proof_batch
    rw [htp]
    by_cases hlen : blobs.length ≠ cms.length ∨ blobs.length ≠ pfs.length
    · rw [if_pos hlen, if_pos hlen]
    · rw [if_neg hlen, if_neg hlen]

/-- Witness for C5 at a concrete context with a thread pool. -/
theorem C5_parallel_equals_serial_witness :
    ctxWithPool.threadpool = some 0 ∧
    EthKzg.verify_blob_kzg_proof_batch_parallel kzgEngineZero ctxWithPool [] [] [] 0
      = .returned (EthKzg.verify_blob_kzg_proof_batch kzgEngineZero ctxWithPool [] [] [] 0) :=
  ⟨rfl, ((C5_parallel_equals_serial blsOracleSuccess kzgEngineZero 0 ctxWithPool
    [] [] [] 0 0 0 0 0 [] [] []).2 rfl).2.2.2.2⟩

/-- Claim C6: on the spec-modelled engine, `verify` fails with
`PointAtInfinity` when the public key or the signature is the identity,
fails with `VerificationFailure` when they are not but the pairing
equation `e(pk, H(message)) == e(G, signature)` does not hold, returns
`Ok(true)` when it holds, and never returns `Ok(false)`. -/
theorem C6_verify_status (r : Nat) (h : Msg → Nat) (pk : EthBlsPubKey)
    (m : Msg) (sig : EthBlsSignature) :
    (pk % r = 0 ∨ sig % r = 0 →
      EthBlsSig.verify (Model.blsEngineModel r h) pk m sig
        = .error .cttEthBls_PointAtInfinity) ∧
    (¬(pk % r = 0 ∨ sig % r = 0) → (pk * h m) % r ≠ sig % r →
      EthBlsSig.verify (Model.blsEngineModel r h) pk m sig
        = .error .cttEthBls_VerificationFailure) ∧
    (¬(pk % r = 0 ∨ sig % r = 0) → (pk * h m) % r = sig % r →
      EthBlsSig.verify (Model.blsEngineModel r h) pk m sig = .ok true) ∧
    EthBlsSig.verify (Model.blsEngineModel r h) pk m sig ≠ .ok false := by
  have hdisp : ∀ s, (Model.blsEngineModel r h).verify pk m sig = s →
      EthBlsSig.verify (Model.blsEngineModel r h) pk m sig
        = (match s with
           | .cttEthBls_Success => .ok true
           | s => .error s) := by
    intro s hs
    unfold EthBlsSig.verify
    rw [hs]
  by_cases h1 : pk % r = 0 ∨ sig % r = 0
  · have hs : (Model.blsEngineModel r h).verify pk m sig
        = .cttEthBls_PointAtInfinity := by
      show Model.ctt_eth_bls_verify r h pk m sig = _
      unfold Model.ctt_eth_bls_verify
      rw [if_pos h1]
    rw [hdisp _ hs]
    exact ⟨fun _ => rfl, fun h2 => absurd h1 h2, fun h2 => absurd h1 h2,
      fun hh => Except.noConfusion hh⟩
  · by_cases h2 : (pk * h m) % r = sig % r
    · have hs : (Model.blsEngineModel r h).verify pk m sig
          = .cttEthBls_Success := by
        show Model.ctt_eth_bls_verify r h pk m sig = _
        unfold Model.ctt_eth_bls_verify
        rw [if_neg h1, if_pos h2]
      rw [hdisp _ hs]
      refine ⟨fun hh => absurd hh h1, fun _ hne => absurd h2 hne, fun _ _ => rfl, ?_⟩
      intro hh
      exact Bool.noConfusion (Except.ok.inj hh)
    · have hs : (Model.blsEngineModel r h).verify pk m sig
          = .cttEthBls_VerificationFailure := by
        show Model.ctt_eth_bls_verify r h pk m sig = _
        unfold Model.ctt_eth_bls_verify
        rw [if_neg h1, if_neg h2]
      rw [hdisp _ hs]
      exact ⟨fun hh => absurd hh h1, fun _ _ => rfl, fun _ he => absurd he h2,
        fun hh => Except.noConfusion hh⟩

/-- Witness for C6 at a concrete honest triple. -/
theorem C6_verify_status_witness :
    ¬((1 : Nat) % 5 = 0 ∨ (1 : Nat) % 5 = 0) ∧
    EthBlsSig.verify (Model.blsEngineModel 5 (fun _ => 1)) 1 [] 1 = .ok true :=
  ⟨by decide, (C6_verify_status 5 (fun _ => 1) 1 [] 1).2.2.1 (by decide) (by decide)⟩

/-- Claim C10, counterexample: the claim states that on a context built
without `set_threadpool`, calling ANY of the `_parallel` operations
panics instead of returning an error; but
`verify_blob_kzg_proof_batch_parallel` performs its length comparison
before the thread-pool access, so on mismatched input lengths it
returns the `InputsLengthsMismatch` error without panicking. -/
theorem C10_counterexample :
    EthKzgContext.builder.load_trusted_setup (.ok 0)
      = .ok { ctx := some 0, threadpool := none } ∧
    EthKzgContextBuilder.build { ctx := some 0, threadpool := none } = .ok ctxNoPool ∧
    EthKzg.verify_blob_kzg_proof_batch_parallel kzgEngineZero ctxNoPool [0] [] [] 0
      = .returned (.error .cttEthKzg_InputsLengthsMismatch) ∧
    EthKzg.verify_blob_kzg_proof_batch_parallel kzgEngineZero ctxNoPool [0] [] [] 0
      ≠ .panicked threadpoolExpectMsg :=
  ⟨rfl, rfl, rfl, fun hh => PanicOr.noConfusion hh⟩

/-- Claim C10, amended: a context built through the builder without
`set_threadpool` carries no thread pool; on such a context the four
non-batch `_parallel` operations panic with the `.expect` message
"Threadpool has been set", and so does
`verify_blob_kzg_proof_batch_parallel` when the input lengths all
match, while on mismatched lengths it returns `InputsLengthsMismatch`
before reaching the thread-pool access; on a context with a thread pool
attached, no `_parallel` operation can panic. -/
theorem C10_threadpool_panic (e : KzgEngine) (ctx : EthKzgContext)
    (blob : Blob) (z : Challenge) (cm : Commitment) (pf : KzgProof)
    (blobs : List Blob) (cms : List Commitment) (pfs : List KzgProof)
    (srb : SecureRandomBytes) (tp : ThreadpoolRef)
    (bl : Except ctt_eth_trusted_setup_status Nat) (b : EthKzgContextBuilder)
    (builtCtx : EthKzgContext) :
    (EthKzgContext.builder.load_trusted_setup bl = .ok b →
      b.build = .ok builtCtx → builtCtx.threadpool = none) ∧
    (ctx.threadpool = none →
      EthKzg.blob_to_kzg_commitment_parallel e ctx blob
        = .panicked threadpoolExpectMsg ∧
      EthKzg.compute_kzg_proof_parallel e ctx blob z
        = .panicked threadpoolExpectMsg ∧
      EthKzg.compute_blob_kzg_proof_parallel e ctx blob cm
        = .panicked threadpoolExpectMsg ∧
      EthKzg.verify_blob_kzg_proof_parallel e ctx blob cm pf
        = .panicked threadpoolExpectMsg ∧
      (¬(blobs.length ≠ cms.length ∨ blobs.length ≠ pfs.length) →
        EthKzg.verify_blob_kzg_proof_batch_parallel e ctx blobs cms pfs srb
          = .panicked threadpoolExpectMsg) ∧
      (blobs.length ≠ cms.length ∨ blobs.length ≠ pfs.length →
        EthKzg.verify_blob_kzg_proof_batch_parallel e ctx blobs cms pfs srb
          = .returned (.error .cttEthKzg_InputsLengthsMismatch))) ∧
    (ctx.threadpool = some tp → ∀ msg : String,
      EthKzg.blob_to_kzg_commitment_parallel e ctx blob ≠ .panicked msg ∧
      EthKzg.compute_kzg_proof_parallel e ctx blob z ≠ .panicked msg ∧
      EthKzg.compute_blob_kzg_proof_parallel e ctx blob cm ≠ .panicked msg ∧
      EthKzg.verify_blob_kzg_proof_parallel e ctx blob cm pf ≠ .panicked msg ∧
      EthKzg.verify_blob_kzg_proof_batch_parallel e ctx blobs cms pfs srb
        ≠ .panicked msg) := by
  refine ⟨?_, fun hnone => ?_, fun hsome msg => ?_⟩
  · intro hload hbuild
    unfold EthKzgContext.builder EthKzgContextBuilder.load_trusted_setup at hload
    cases bl with
    | ok c =>
      cases hload
      unfold EthKzgContextBuilder.build at hbuild
      cases hbuild
      rfl
    | error s => exact Except.noConfusion hload
  · unfold EthKzg.blob_to_kzg_commitment_parallel EthKzg.compute_kzg_proof_parallel
      EthKzg.compute_blob_kzg_proof_parallel EthKzg.verify_blob_kzg_proof_parallel
      EthKzg.verify_blob_kzg_proof_batch_parallel
    rw [hnone]
    refine ⟨rfl, rfl, rfl, rfl, fun hlen => ?_, fun hlen => ?_⟩
    · rw [if_neg hlen]
    · rw [if_pos hlen]
  · unfold EthKzg.blob_to_kzg_commitment_parallel EthKzg.compute_kzg_proof_parallel
      EthKzg.compute_blob_kzg_proof_parallel EthKzg.verify_blob_kzg_proof_parallel
      EthKzg.verify_blob_kzg_proof_batch_parallel
    rw [hsome]
    refine ⟨fun hh => PanicOr.noConfusion hh, fun hh => PanicOr.noConfusion hh,
      fun hh => PanicOr.noConfusion hh, fun hh => PanicOr.noConfusion hh, ?_⟩
    by_cases hlen : blobs.length ≠ cms.length ∨ blobs.length ≠ pfs.length
    · rw [if_pos hlen]
      exact fun hh => PanicOr.noConfusion hh
    · rw [if_neg hlen]
      exact fun hh => PanicOr.noConfusion hh

/-- The 48-byte width is eight times the abscissa width. -/
theorem pow384_eq : Model.POW384 = Model.POW381 * 8 := by
  simp only [Model.POW381, Model.POW384]
  rw [show (8 : Nat) = 2 ^ 3 from rfl, ← pow_add,
    show (381 + 3 : Nat) = 384 from rfl]

/-- The 96-byte width is eight times the flag position. -/
theorem pow768_eq : Model.POW768 = Model.POW765 * 8 := by
  simp only [Model.POW765, Model.POW768]
  rw [show (8 : Nat) = 2 ^ 3 from rfl, ← pow_add,
    show (765 + 3 : Nat) = 768 from rfl]

/-- The flag position of a 96-byte encoding splits into the two limb
widths. -/
theorem pow765_eq : Model.POW384 * Model.POW381 = Model.POW765 := by
  simp only [Model.POW381, Model.POW384, Model.POW765]
  rw [← pow_add, show (384 + 381 : Nat) = 765 from rfl]

/-- The abscissa width is positive. -/
theorem pow381_pos : 0 < Model.POW381 := by
  simp only [Model.POW381]
  exact Nat.pos_pow_of_pos 381 (by omega)

/-- The flag position of a 96-byte encoding is positive. -/
theorem pow765_pos : 0 < Model.POW765 := by
  simp only [Model.POW765]
  exact Nat.pos_pow_of_pos 765 (by omega)

/-- Any 48-byte value that the modelled codec deserializes to a point
is reconstructed exactly by serialization. -/
theorem g1_roundtrip (p : Nat) (member : Nat → Bool) (b : Nat) (pt : Model.G1Repr)
    (hb : b < Model.POW384)
    (hd : Model.deserialize_pubkey_compressed p member b = .ok pt) :
    Model.serialize_pubkey_compressed pt = b := by
  simp only [Model.deserialize_pubkey_compressed] at hd
  obtain ⟨f, hfdef⟩ : ∃ n, n = b / Model.POW381 := ⟨_, rfl⟩
  rw [← hfdef] at hd
  have h8 : f < 8 := by
    rw [hfdef]
    exact Nat.div_lt_of_lt_mul (pow384_eq ▸ hb)
  have hdm : Model.POW381 * f + b % Model.POW381 = b := by
    rw [hfdef]
    exact Nat.div_add_mod b Model.POW381
  by_cases hA : f / 4 % 2 ≠ 1
  · rw [if_pos hA] at hd
    exact Except.noConfusion hd
  · rw [if_neg hA] at hd
    by_cases hB : f / 2 % 2 = 1
    · rw [if_pos hB] at hd
      by_cases hC : f % 2 = 0 ∧ b % Model.POW381 = 0
      · rw [if_pos hC] at hd
        obtain ⟨hsign, hx⟩ := hC
        injection hd with hpt
        subst hpt
        show 6 * Model.POW381 = b
        have h6 : f = 6 := by omega
        rw [h6, hx] at hdm
        omega
      · rw [if_neg hC] at hd
        exact Except.noConfusion hd
    · rw [if_neg hB] at hd
      by_cases hD : p ≤ b % Model.POW381
      · rw [if_pos hD] at hd
        exact Except.noConfusion hd
      · rw [if_neg hD] at hd
        by_cases hE : member (b % Model.POW381) = true
        · rw [if_pos hE] at hd
          injection hd with hpt
          subst hpt
          show (4 + f % 2) * Model.POW381 + b % Model.POW381 = b
          have hf4 : 4 + f % 2 = f := by omega
          rw [hf4, Nat.mul_comm]
          exact hdm
        · rw [if_neg hE] at hd
          exact Except.noConfusion hd

/-- Any 96-byte value that the modelled codec deserializes to a point
is reconstructed exactly by serialization. -/
theorem g2_roundtrip (p : Nat) (member : Nat → Nat → Bool) (b : Nat) (pt : Model.G2Repr)
    (hb : b < Model.POW768)
    (hd : Model.deserialize_signature_compressed p member b = .ok pt) :
    Model.serialize_signature_compressed pt = b := by
  have hq : b / Model.POW384 / Model.POW381 = b / Model.POW765 := by
    rw [Nat.div_div_eq_div_mul, pow765_eq]
  simp only [Model.deserialize_signature_compressed] at hd
  obtain ⟨f, hfdef⟩ : ∃ n, n = b / Model.POW765 := ⟨_, rfl⟩
  rw [← hfdef] at hd hq
  have h8 : f < 8 := by
    rw [hfdef]
    exact Nat.div_lt_of_lt_mul (pow768_eq ▸ hb)
  have hdm0 : Model.POW384 * (b / Model.POW384) + b % Model.POW384 = b :=
    Nat.div_add_mod b Model.POW384
  have hdm1 : Model.POW381 * f + b / Model.POW384 % Model.POW381
      = b / Model.POW384 := by
    rw [← hq]
    exact Nat.div_add_mod (b / Model.POW384) Model.POW381
  by_cases hA : f / 4 % 2 ≠ 1
  · rw [if_pos hA] at hd
    exact Except.noConfusion hd
  · rw [if_neg hA] at hd
    by_cases hB : f / 2 % 2 = 1
    · rw [if_pos hB] at hd
      by_cases hC : f % 2 = 0 ∧ b / Model.POW384 % Model.POW381 = 0 ∧ b % Model.POW384 = 0
      · rw [if_pos hC] at hd
        obtain ⟨hsign, hx1, hx0⟩ := hC
        injection hd with hpt
        subst hpt
        show 6 * Model.POW765 = b
        have h6 : f = 6 := by omega
        rw [h6, hx1] at hdm1
        rw [hx0] at hdm0
        have hq384 : b / Model.POW384 = Model.POW381 * 6 := by omega
        rw [hq384] at hdm0
        calc 6 * Model.POW765 = Model.POW384 * (Model.POW381 * 6) + 0 := by
              rw [← pow765_eq]; ring
          _ = b := hdm0
      · rw [if_neg hC] at hd
        exact Except.noConfusion hd
    · rw [if_neg hB] at hd
      by_cases hD : p ≤ b / Model.POW384 % Model.POW381 ∨ p ≤ b % Model.POW384
      · rw [if_pos hD] at hd
        exact Except.noConfusion hd
      · rw [if_neg hD] at hd
        by_cases hE : member (b / Model.POW384 % Model.POW381) (b % Model.POW384) = true
        · rw [if_pos hE] at hd
          injection hd with hpt
          subst hpt
          show ((4 + f % 2) * Model.POW381 + b / Model.POW384 % Model.POW381)
              * Model.POW384 + b % Model.POW384 = b
          have hf4 : 4 + f % 2 = f := by omega
          have hq2 : f * Model.POW381 + b / Model.POW384 % Model.POW381
              = b / Model.POW384 := by
            rw [Nat.mul_comm]
            exact hdm1
          rw [hf4, hq2, Nat.mul_comm]
          exact hdm0
        · rw [if_neg hE] at hd
          exact Except.noConfusion hd

/-- Claim C7: every 48-byte value accepted by public-key
deserialization and every 96-byte value accepted by signature
deserialization is reconstructed bit-exactly by serializing the decoded
point; serialization is a function of the point alone (a single
canonical compressed encoding). -/
theorem C7_serialize_deserialize_roundtrip (p : Nat) (memG1 : Nat → Bool)
    (memG2 : Nat → Nat → Bool) (b48 b96 : Nat)
    (pt1 : Model.G1Repr) (pt2 : Model.G2Repr)
    (hb48 : b48 < Model.POW384) (hb96 : b96 < Model.POW768) :
    (Model.deserialize_pubkey_compressed p memG1 b48 = .ok pt1 →
      Model.serialize_pubkey_compressed pt1 = b48) ∧
    (Model.deserialize_signature_compressed p memG2 b96 = .ok pt2 →
      Model.serialize_signature_compressed pt2 = b96) :=
  ⟨g1_roundtrip p memG1 b48 pt1 hb48, g2_roundtrip p memG2 b96 pt2 hb96⟩

set_option maxRecDepth 8000 in
/-- Witness for C7 at concrete encodings: a finite point with abscissa
1 below the modulus 97, and the canonical infinity signature
encoding. -/
theorem C7_serialize_deserialize_roundtrip_witness :
    Model.deserialize_pubkey_compressed 97 (fun _ => true) (4 * Model.POW381 + 1)
      = .ok (.point 0 1) ∧
    Model.serialize_pubkey_compressed (.point 0 1) = 4 * Model.POW381 + 1 ∧
    Model.deserialize_signature_compressed 97 (fun _ _ => true) (6 * Model.POW765)
      = .ok .infinity ∧
    Model.serialize_signature_compressed .infinity = 6 * Model.POW765 := by
  have hb48 : 4 * Model.POW381 + 1 < Model.POW384 := by
    have h1 := pow384_eq
    have h2 := pow381_pos
    omega
  have hb96 : 6 * Model.POW765 < Model.POW768 := by
    have h1 := pow768_eq
    have h2 := pow765_pos
    omega
  have hmain := C7_serialize_deserialize_roundtrip 97 (fun _ => true) (fun _ _ => true)
    (4 * Model.POW381 + 1) (6 * Model.POW765) (.point 0 1) .infinity hb48 hb96
  exact ⟨rfl, hmain.1 rfl, rfl, hmain.2 rfl⟩

/-- Claim C8: for every secret key accepted by secret-key
deserialization and every message, verifying the signature produced by
`sign` under the public key produced by `derive_pubkey` succeeds, on
the spec-modelled engine with prime group order. -/
theorem C8_sign_verify_roundtrip (r : Nat) (skBytes : Nat) (sk : Nat)
    (m : Msg) (hr : Nat.Prime r)
    (hdeser : Model.deserialize_seckey r skBytes = .ok sk) :
    EthBlsSig.verify (Model.blsEngineModel r (Model.h_model r))
      (Model.derive_pubkey r sk) m
      (Model.sign r (Model.h_model r) sk m) = .ok true := by
  have hsk : sk ≠ 0 ∧ sk < r := by
    unfold Model.deserialize_seckey at hdeser
    by_cases h0 : skBytes = 0
    · rw [if_pos h0] at hdeser
      exact Except.noConfusion hdeser
    · rw [if_neg h0] at hdeser
      by_cases h1 : r ≤ skBytes
      · rw [if_pos h1] at hdeser
        exact Except.noConfusion hdeser
      · rw [if_neg h1] at hdeser
        injection hdeser with h2
        subst h2
        exact ⟨h0, Nat.lt_of_not_le h1⟩
  obtain ⟨hsk0, hskr⟩ := hsk
  have hr2 : 2 ≤ r := hr.two_le
  have hm1 : 1 ≤ Model.h_model r m ∧ Model.h_model r m < r := by
    unfold Model.h_model
    constructor
    · omega
    · have hlt : Model.msgToNat m % (r - 1) < r - 1 := Nat.mod_lt _ (by omega)
      omega
  have hskmod : sk % r = sk := Nat.mod_eq_of_lt hskr
  have hpk0 : Model.derive_pubkey r sk % r ≠ 0 := by
    unfold Model.derive_pubkey
    rw [Nat.mod_mod_of_dvd sk dvd_rfl, hskmod]
    exact hsk0
  have hsig0 : Model.sign r (Model.h_model r) sk m % r ≠ 0 := by
    unfold Model.sign
    rw [Nat.mod_mod_of_dvd _ dvd_rfl]
    intro h0
    have hdvd : r ∣ sk * Model.h_model r m := Nat.dvd_iff_mod_eq_zero.mpr h0
    rcases (Nat.Prime.dvd_mul hr).mp hdvd with hdsk | hdh
    · exact absurd (Nat.le_of_dvd (Nat.pos_of_ne_zero hsk0) hdsk) (by omega)
    · exact absurd (Nat.le_of_dvd (by omega) hdh) (by omega)
  have heq : (Model.derive_pubkey r sk * Model.h_model r m) % r
      = Model.sign r (Model.h_model r) sk m % r := by
    unfold Model.derive_pubkey Model.sign
    rw [Nat.mod_mod_of_dvd _ dvd_rfl]
    exact Nat.mod_mul_mod
  have hs : (Model.blsEngineModel r (Model.h_model r)).verify
      (Model.derive_pubkey r sk) m (Model.sign r (Model.h_model r) sk m)
      = .cttEthBls_Success := by
    show Model.ctt_eth_bls_verify r (Model.h_model r) _ _ _ = _
    unfold Model.ctt_eth_bls_verify
    rw [if_neg (by
      intro hor
      rcases hor with h | h
      · exact hpk0 h
      · exact hsig0 h), if_pos heq]
  unfold EthBlsSig.verify
  rw [hs]

/-- Witness for C8 at a concrete secret key and message, with prime
group order 5. -/
theorem C8_sign_verify_roundtrip_witness :
    Model.deserialize_seckey 5 3 = .ok 3 ∧
    EthBlsSig.verify (Model.blsEngineModel 5 (Model.h_model 5))
      (Model.derive_pubkey 5 3) [] (Model.sign 5 (Model.h_model 5) 3 []) = .ok true :=
  ⟨rfl, C8_sign_verify_roundtrip 5 3 3 [] (by norm_num) rfl⟩

/-- Witness for the amended C10 at concrete contexts and inputs. -/
theorem C10_threadpool_panic_witness :
    ctxNoPool.threadpool = none ∧
    EthKzg.blob_to_kzg_commitment_parallel kzgEngineZero ctxNoPool 0
      = .panicked threadpoolExpectMsg ∧
    ctxWithPool.threadpool = some 0 ∧
    EthKzg.blob_to_kzg_commitment_parallel kzgEngineZero ctxWithPool 0
      ≠ .panicked threadpoolExpectMsg :=
  ⟨rfl,
   ((C10_threadpool_panic kzgEngineZero ctxNoPool 0 0 0 0 [] [] [] 0 0
      (.ok 0) EthKzgContext.builder ctxNoPool).2.1 rfl).1,
   rfl,
   (((C10_threadpool_panic kzgEngineZero ctxWithPool 0 0 0 0 [] [] [] 0 0
      (.ok 0) EthKzgContext.builder ctxWithPool).2.2 rfl) threadpoolExpectMsg).1⟩

end Constantine
